import Mathlib

/-!
Verification of the session-oriented Spotify MCP request client
(`src/backend/src/utils/spotifyMCP-Client.ts`, class `SimpleSpotifyMCPClient`)
and the server-side session registry dispatch
(`src/mcp-servers/spotify-mcp-server/src/index.ts`, `app.post("/mcp")`),
against the repository specification.

The embedding is shallow: the network is an oracle (a list of fetch
outcomes consumed in order), JavaScript exceptions become `Except`-style
outcome values identified by their message strings, and `JSON.parse` is
modelled by an executable fuel-based parser over a JSON value type.
-/

/-- JSON values, modelling the JavaScript values produced by `JSON.parse`
for the JSON subset exchanged by this program (numbers are integral in
every envelope the client builds or inspects). Object fields keep their
textual order. -/
inductive Json where
  | null : Json
  | bool (b : Bool) : Json
  | num (n : Int) : Json
  | str (s : String) : Json
  | arr (elems : List Json) : Json
  | obj (fields : List (String × Json)) : Json
deriving Repr

namespace Json

/-- Property access `j.k` on a parsed value: the first field named `k` of
an object, `none` (JavaScript `undefined`) otherwise. -/
def getField : Json → String → Option Json
  | obj fields, k => fields.lookup k
  | _, _ => none

/-- JavaScript truthiness of a parsed JSON value. -/
def isTruthy : Json → Bool
  | null => false
  | bool b => b
  | num n => n != 0
  | str s => s != ""
  | arr _ => true
  | obj _ => true

/-- The opening-brace character. -/
def lbrace : Char := Char.ofNat 123

/-- The closing-brace character. -/
def rbrace : Char := Char.ofNat 125

/-- JSON whitespace. -/
def isWs (c : Char) : Bool :=
  c = ' ' || c = '\t' || c = '\n' || c = '\r'

/-- Drop leading JSON whitespace. -/
def skipWs : List Char → List Char
  | c :: cs => if isWs c then skipWs cs else c :: cs
  | [] => []

/-- Translate a JSON string escape character. -/
def escChar (c : Char) : Option Char :=
  if c = '"' then some '"'
  else if c = '\\' then some '\\'
  else if c = '/' then some '/'
  else if c = 'n' then some '\n'
  else if c = 't' then some '\t'
  else if c = 'r' then some '\r'
  else if c = 'b' then some (Char.ofNat 8)
  else if c = 'f' then some (Char.ofNat 12)
  else none

/-- Parse the body of a JSON string after the opening quote, accumulating
characters in reverse. -/
def parseStringAux : List Char → List Char → Option (String × List Char)
  | acc, c :: cs =>
    if c = '"' then some (String.mk acc.reverse, cs)
    else if c = '\\' then
      match cs with
      | e :: cs2 =>
        match escChar e with
        | some d => parseStringAux (d :: acc) cs2
        | none => none
      | [] => none
    else parseStringAux (c :: acc) cs
  | _, [] => none

/-- Parse a run of decimal digits into an accumulator. -/
def parseNatAux : Nat → List Char → Nat × List Char
  | acc, c :: cs =>
    if c.isDigit then parseNatAux (acc * 10 + (c.toNat - 48)) cs
    else (acc, c :: cs)
  | acc, [] => (acc, [])

/-- Check that `expected` is a prefix of the input and drop it. -/
def expectChars : List Char → List Char → Option (List Char)
  | [], cs => some cs
  | e :: es, c :: cs => if c = e then expectChars es cs else none
  | _ :: _, [] => none

mutual

/-- Fuel-based parser for a single JSON value, modelling `JSON.parse`
(restricted to integral numbers, the only kind this program exchanges). -/
def parseVal : Nat → List Char → Option (Json × List Char)
  | 0, _ => none
  | fuel + 1, cs =>
    match skipWs cs with
    | [] => none
    | c :: rest =>
      if c = '"' then
        match parseStringAux [] rest with
        | some (s, r) => some (Json.str s, r)
        | none => none
      else if c = lbrace then parseMembers fuel (skipWs rest) true
      else if c = '[' then parseElems fuel (skipWs rest) true
      else if c = 't' then
        match expectChars ['r', 'u', 'e'] rest with
        | some r => some (Json.bool true, r)
        | none => none
      else if c = 'f' then
        match expectChars ['a', 'l', 's', 'e'] rest with
        | some r => some (Json.bool false, r)
        | none => none
      else if c = 'n' then
        match expectChars ['u', 'l', 'l'] rest with
        | some r => some (Json.null, r)
        | none => none
      else if c = '-' then
        match rest with
        | d :: _ =>
          if d.isDigit then
            match parseNatAux 0 rest with
            | (n, r) => some (Json.num (-(n : Int)), r)
          else none
        | [] => none
      else if c.isDigit then
        match parseNatAux 0 (c :: rest) with
        | (n, r) => some (Json.num (n : Int), r)
      else none

/-- Parse the elements of a JSON array after the opening bracket
(whitespace already skipped); `first` is true before the first element. -/
def parseElems : Nat → List Char → Bool → Option (Json × List Char)
  | 0, _, _ => none
  | fuel + 1, cs, first =>
    match cs with
    | c :: rest =>
      if first && c = ']' then some (Json.arr [], rest)
      else
        match parseVal fuel cs with
        | some (v, r) =>
          match skipWs r with
          | s :: r2 =>
            if s = ',' then
              match parseElems fuel (skipWs r2) false with
              | some (Json.arr vs, r3) => some (Json.arr (v :: vs), r3)
              | _ => none
            else if s = ']' then some (Json.arr [v], r2)
            else none
          | [] => none
        | none => none
    | [] => none

/-- Parse the members of a JSON object after the opening brace
(whitespace already skipped); `first` is true before the first member. -/
def parseMembers : Nat → List Char → Bool → Option (Json × List Char)
  | 0, _, _ => none
  | fuel + 1, cs, first =>
    match cs with
    | c :: rest =>
      if first && c = rbrace then some (Json.obj [], rest)
      else if c = '"' then
        match parseStringAux [] rest with
        | some (k, r) =>
          match skipWs r with
          | s :: r2 =>
            if s = ':' then
              match parseVal fuel r2 with
              | some (v, r3) =>
                match skipWs r3 with
                | s2 :: r4 =>
                  if s2 = ',' then
                    match parseMembers fuel (skipWs r4) false with
                    | some (Json.obj ms, r5) => some (Json.obj ((k, v) :: ms), r5)
                    | _ => none
                  else if s2 = rbrace then some (Json.obj [(k, v)], r4)
                  else none
                | [] => none
              | none => none
            else none
          | [] => none
        | none => none
      else none
    | [] => none

end

/-- Model of JavaScript `JSON.parse`: parse the whole body as one JSON
document, rejecting trailing garbage; `none` models a thrown `SyntaxError`. -/
def parse (s : String) : Option Json :=
  match parseVal (2 * s.length + 2) s.toList with
  | some (v, rest) =>
    match skipWs rest with
    | [] => some v
    | _ :: _ => none
  | none => none

end Json

namespace MCPClient

/-- JavaScript `text.split("\n")`: the list of newline-separated
segments, with `""` splitting to `[""]`. -/
def splitOnNl : List Char → List (List Char)
  | [] => [[]]
  | c :: cs =>
    if c = '\n' then [] :: splitOnNl cs
    else
      match splitOnNl cs with
      | l :: ls => (c :: l) :: ls
      | [] => [[c]]

/-- Whitespace removed by JavaScript `String.prototype.trim`. -/
def isJsWs (c : Char) : Bool :=
  c = ' ' || c = '\t' || c = '\n' || c = '\r'
    || c = Char.ofNat 11 || c = Char.ofNat 12

/-- JavaScript `s.trim()`: drop whitespace from both ends. -/
def trimChars (cs : List Char) : List Char :=
  ((cs.dropWhile isJsWs).reverse.dropWhile isJsWs).reverse

/-- `line.startsWith(prefixChars)`. -/
def startsWithChars : List Char → List Char → Bool
  | [], _ => true
  | e :: es, c :: cs => c = e && startsWithChars es cs
  | _ :: _, [] => false

/-- The characters of the literal prefix recognised for event-stream
payload lines. -/
def dataPrefixChars : List Char := ['d', 'a', 't', 'a', ':', ' ']

/-- The characters of the stream-end sentinel skipped by the decoder. -/
def doneChars : List Char := ['[', 'D', 'O', 'N', 'E', ']']

/-- The `data: ` line extraction loop of `parseSSEResponse`
(`spotifyMCP-Client.ts` lines 131-137): for every line starting with the
literal prefix, take the rest of the line after the first six
characters, trim it, and append it to the accumulator unless it is
empty or the sentinel. -/
def extractSSEAux : List (List Char) → List Char
  | [] => []
  | line :: rest =>
    if startsWithChars dataPrefixChars line then
      let data := trimChars (line.drop 6)
      if !data.isEmpty && data != doneChars then data ++ extractSSEAux rest
      else extractSSEAux rest
    else extractSSEAux rest

/-- The `jsonData` accumulated by `parseSSEResponse` from a body: split
on newlines and concatenate the stripped `data: ` payloads. -/
def extractSSEData (text : String) : String :=
  String.mk (extractSSEAux (splitOnNl text.toList))

/-- JavaScript `s.substring(0, n)`. -/
def substringTo (s : String) (n : Nat) : String :=
  String.mk (s.toList.take n)

/-- `SimpleSpotifyMCPClient.parseSSEResponse`: extract and concatenate the
`data: ` payloads, then JSON-parse the concatenation; a thrown error is
modelled as `Except.error` carrying the exception message. -/
def parseSSEResponse (text : String) : Except String Json :=
  let jsonData := extractSSEData text
  if jsonData != "" then
    match Json.parse jsonData with
    | some j => Except.ok j
    | none => Except.error ("Invalid JSON in SSE response: " ++ jsonData)
  else
    Except.error "No valid JSON found in SSE response"

/-- The two-path body decode of `SimpleSpotifyMCPClient.sendRequest`
(lines 192-212): try `JSON.parse` on the whole body; on failure fall back
to the SSE path; if both fail, throw the unparseable-response error
carrying the first 200 characters of the body. -/
def decodeBody (body : String) : Except String Json :=
  match Json.parse body with
  | some j => Except.ok j
  | none =>
    match parseSSEResponse body with
    | Except.ok j => Except.ok j
    | Except.error _ =>
        Except.error ("Unable to parse response: " ++ substringTo body 200)

/-- Outcome of one `fetch` call: an HTTP response (any status) with its
status text, `mcp-session-id` response header and body text, or a
rejected promise (network-level failure) carrying the error message. -/
inductive FetchResult where
  | success (status : Nat) (statusText : String)
      (sessionHeader : Option String) (body : String) : FetchResult
  | networkError (msg : String) : FetchResult
deriving Repr, DecidableEq

/-- `fetch` `Response.ok`: status in the 2xx range. -/
def statusOk (status : Nat) : Bool :=
  200 ≤ status && status < 300

/-- The mutable fields of `SimpleSpotifyMCPClient`: `sessionId`
(initially `null`) and `requestId` (initially `1`). -/
structure ClientState where
  sessionId : Option String
  requestId : Nat
deriving Repr, DecidableEq

/-- The state of a freshly constructed client. -/
def initialState : ClientState := ⟨none, 1⟩

/-- JavaScript truthiness of the client's `sessionId` field: both
`null` and the empty string are falsy, so `if (this.sessionId)` and
`if (!this.sessionId)` distinguish a non-empty identifier from
everything else. -/
def sessionTruthy : Option String → Bool
  | some s => s != ""
  | none => false

/-- An outbound network interaction: a `POST` of a JSON body, or the
`DELETE` issued by `close()` for a session. -/
inductive SentMessage where
  | post (body : Json) : SentMessage
  | deleteSession (sid : String) : SentMessage
deriving Repr

/-- The `params` object of the handshake envelope (lines 50-57). -/
def initializeParams : Json :=
  Json.obj
    [("protocolVersion", Json.str "2024-11-05"),
     ("capabilities", Json.obj [("tools", Json.obj [])]),
     ("clientInfo", Json.obj
        [("name", Json.str "spotify-mcp-client"),
         ("version", Json.str "1.0.0")])]

/-- The handshake request envelope sent by `initialize()`. -/
def initializeBody (id : Nat) : Json :=
  Json.obj
    [("jsonrpc", Json.str "2.0"),
     ("method", Json.str "initialize"),
     ("params", initializeParams),
     ("id", Json.num id)]

/-- The request envelope built by `sendRequest` (lines 159-164). -/
def requestBody (method : String) (params : Json) (id : Nat) : Json :=
  Json.obj
    [("jsonrpc", Json.str "2.0"),
     ("method", Json.str method),
     ("params", params),
     ("id", Json.num id)]

/-- The envelope built by `sendNotification` (lines 99-103): no `id`. -/
def notificationBody (method : String) (params : Json) : Json :=
  Json.obj
    [("jsonrpc", Json.str "2.0"),
     ("method", Json.str method),
     ("params", params)]

/-- Message of the error thrown after the retry ceiling
(`SessionInitializationFailed`). -/
def sessionInitFailedMsg : String :=
  "❌ Spotify MCP session initialization failed after multiple retries."

/-- Message of the error thrown when the handshake response carries no
`mcp-session-id` header (`MissingSessionId`). -/
def noSessionIdMsg : String := "No session ID returned from server"

/-- Message of the error thrown by `sendRequest`/`sendNotification` when
no session is held (`SessionNotInitialized`). -/
def notInitializedMsg : String := "Session not initialized"

/-- Model of a `fetch` that never resolves nor rejects (oracle
exhausted); treated as a network-level failure. -/
def noResponseMsg : String := "fetch failed: no response"

/-- Message of the error thrown on a non-2xx, non-429 handshake response
(`RemoteHandshakeError`). -/
def handshakeFailMsg (status : Nat) (statusText body : String) : String :=
  "Failed to initialize Spotify MCP session: " ++ toString status ++ " "
    ++ statusText ++ " - " ++ body

/-- Message of the error thrown on a non-2xx response to a procedure
call (`RemoteCallError`). -/
def requestFailMsg (status : Nat) (statusText body : String) : String :=
  "Spotify request failed: " ++ toString status ++ " " ++ statusText
    ++ " - " ++ body

/-- Result of `initialize()`: the outcome (success or thrown error
message), the client state afterwards, the messages sent, the backoff
sleeps performed (in ms, in order), and the unconsumed oracle. -/
structure InitResult where
  outcome : Except String Unit
  state : ClientState
  sent : List SentMessage
  waits : List Nat
  rest : List FetchResult
deriving Repr

/-- The `while (attempt < maxRetries)` loop of `initialize()` (lines
43-87), with `fuel = maxRetries - attempt` made explicit. Each iteration
sends the handshake envelope with the current `requestId` (incremented
per attempt); a 429 sleeps `2 ^ attempt * 1000` ms and retries; any
other non-2xx throws; a 2xx stores the `mcp-session-id` header and
throws when it is falsy (absent or the empty string, lines 78-81),
otherwise awaits `sendNotification`, whose non-2xx responses are only
logged but whose network-level rejection propagates. -/
def initLoop : Nat → Nat → ClientState → List FetchResult → InitResult
  | _, 0, st, oracle => ⟨Except.error sessionInitFailedMsg, st, [], [], oracle⟩
  | attempt, fuel + 1, st, oracle =>
    let body := initializeBody st.requestId
    let st1 : ClientState := ⟨st.sessionId, st.requestId + 1⟩
    match oracle with
    | [] => ⟨Except.error noResponseMsg, st1, [SentMessage.post body], [], []⟩
    | FetchResult.networkError e :: rest =>
        ⟨Except.error e, st1, [SentMessage.post body], [], rest⟩
    | FetchResult.success status statusText hdr rbody :: rest =>
      if status = 429 then
        let wait := 2 ^ attempt * 1000
        let res := initLoop (attempt + 1) fuel st1 rest
        ⟨res.outcome, res.state, SentMessage.post body :: res.sent,
          wait :: res.waits, res.rest⟩
      else if !statusOk status then
        ⟨Except.error (handshakeFailMsg status statusText rbody), st1,
          [SentMessage.post body], [], rest⟩
      else
        let st2 : ClientState := ⟨hdr, st1.requestId⟩
        if sessionTruthy hdr then
          let nbody := notificationBody "notifications/initialized" (Json.obj [])
          match rest with
          | [] => ⟨Except.error noResponseMsg, st2,
              [SentMessage.post body, SentMessage.post nbody], [], []⟩
          | FetchResult.networkError e :: rest2 =>
              ⟨Except.error e, st2,
                [SentMessage.post body, SentMessage.post nbody], [], rest2⟩
          | FetchResult.success _ _ _ _ :: rest2 =>
              ⟨Except.ok (), st2,
                [SentMessage.post body, SentMessage.post nbody], [], rest2⟩
        else
          ⟨Except.error noSessionIdMsg, st2, [SentMessage.post body], [], rest⟩

/-- `SimpleSpotifyMCPClient.initialize()` with `maxRetries = 3` and
`attempt = 0`. -/
def initializeClient (st : ClientState) (oracle : List FetchResult) : InitResult :=
  initLoop 0 3 st oracle

/-- JavaScript template-literal interpolation of a possibly-undefined
parsed JSON value (as in the thrown message of line 215). -/
def jsDisplay : Option Json → String
  | none => "undefined"
  | some Json.null => "null"
  | some (Json.bool b) => cond b "true" "false"
  | some (Json.num n) => toString n
  | some (Json.str s) => s
  | some (Json.arr _) => "[array]"
  | some (Json.obj _) => "[object Object]"

/-- `${result.error.message}` of line 215. -/
def errMessageOf (e : Json) : String :=
  jsDisplay (e.getField "message")

/-- Lines 214-219 of `sendRequest`: a truthy `error` field of the
decoded envelope throws `RemoteProcedureError`; otherwise the `result`
field (possibly `undefined`) is returned. -/
def envelopeOutcome (env : Json) : Except String (Option Json) :=
  match env.getField "error" with
  | some err =>
    if err.isTruthy then
      Except.error ("Spotify MCP Error: " ++ errMessageOf err)
    else Except.ok (env.getField "result")
  | none => Except.ok (env.getField "result")

/-- The outcome of `sendRequest` once the `fetch` has resolved: non-2xx
throws `RemoteCallError`; otherwise the body is decoded and the envelope
inspected. -/
def sendRequestOutcome : FetchResult → Except String (Option Json)
  | FetchResult.networkError e => Except.error e
  | FetchResult.success status statusText _ rbody =>
    if !statusOk status then
      Except.error (requestFailMsg status statusText rbody)
    else
      match decodeBody rbody with
      | Except.error e => Except.error e
      | Except.ok env => envelopeOutcome env

/-- Result of `sendRequest`/`callTool`/`listTools`: the outcome, the
client state afterwards, the messages sent, and the unconsumed oracle. -/
structure CallResult where
  outcome : Except String (Option Json)
  state : ClientState
  sent : List SentMessage
  rest : List FetchResult
deriving Repr

/-- `SimpleSpotifyMCPClient.sendRequest` (lines 152-220): with a falsy
`sessionId` (`null` or `""`) it throws `SessionNotInitialized` before
any network call (`if (!this.sessionId)`, line 153); otherwise it sends
the request envelope with the incremented `requestId` and interprets
the response. -/
def sendRequest (st : ClientState) (method : String) (params : Json)
    (oracle : List FetchResult) : CallResult :=
  if !sessionTruthy st.sessionId then
    ⟨Except.error notInitializedMsg, st, [], oracle⟩
  else
    let body := requestBody method params st.requestId
    let st1 : ClientState := ⟨st.sessionId, st.requestId + 1⟩
    match oracle with
    | [] => ⟨Except.error noResponseMsg, st1, [SentMessage.post body], []⟩
    | r :: rest => ⟨sendRequestOutcome r, st1, [SentMessage.post body], rest⟩

/-- `callTool` (lines 222-227). -/
def callTool (st : ClientState) (name : String) (args : Json)
    (oracle : List FetchResult) : CallResult :=
  sendRequest st "tools/call"
    (Json.obj [("name", Json.str name), ("arguments", args)]) oracle

/-- `listTools` (lines 229-231). -/
def listTools (st : ClientState) (oracle : List FetchResult) : CallResult :=
  sendRequest st "tools/list" (Json.obj []) oracle

/-- `close()` (lines 233-247): when the held `sessionId` is truthy
(`if (this.sessionId)`, line 234 — `""` is falsy and sends nothing),
fire a DELETE for it whose outcome `r` is consumed by a `.catch`
handler (so it cannot affect the result); in every case clear
`sessionId`. -/
def close (st : ClientState) (_r : FetchResult) :
    ClientState × List SentMessage :=
  match st.sessionId with
  | some sid =>
    if sid != "" then (⟨none, st.requestId⟩, [SentMessage.deleteSession sid])
    else (⟨none, st.requestId⟩, [])
  | none => (⟨none, st.requestId⟩, [])

/-- One public client operation, for trace-level statements. `opClose`
carries the outcome of its fire-and-forget DELETE. -/
inductive ClientOp where
  | opInit : ClientOp
  | opCallTool (name : String) (args : Json) : ClientOp
  | opListTools : ClientOp
  | opClose (r : FetchResult) : ClientOp

/-- Effect of one operation on the client state: the new state, the
messages sent, and the unconsumed oracle. -/
def stepOp (st : ClientState) (oracle : List FetchResult) :
    ClientOp → ClientState × List SentMessage × List FetchResult
  | ClientOp.opInit =>
    let r := initializeClient st oracle
    (r.state, r.sent, r.rest)
  | ClientOp.opCallTool name args =>
    let r := callTool st name args oracle
    (r.state, r.sent, r.rest)
  | ClientOp.opListTools =>
    let r := listTools st oracle
    (r.state, r.sent, r.rest)
  | ClientOp.opClose r =>
    let p := close st r
    (p.1, p.2, oracle)

/-- Run a sequence of operations, collecting every message sent over
the client's lifetime. -/
def run : ClientState → List ClientOp → List FetchResult →
    ClientState × List SentMessage
  | st, [], _ => (st, [])
  | st, op :: ops, oracle =>
    let s := stepOp st oracle op
    let t := run s.1 ops s.2.2
    (t.1, s.2.1 ++ t.2)

/-- The `id` field of a sent message, when it is a request envelope
carrying a numeric id. -/
def msgId : SentMessage → Option Int
  | SentMessage.post b =>
    match b.getField "id" with
    | some (Json.num n) => some n
    | _ => none
  | SentMessage.deleteSession _ => none

/-- The ids of the request envelopes of a trace, in send order. -/
def requestIds (msgs : List SentMessage) : List Int :=
  msgs.filterMap msgId

/-- `[start, start + 1, ..., start + len - 1]` as integers. -/
def natSeq (start : Nat) : Nat → List Int
  | 0 => []
  | len + 1 => (start : Int) :: natSeq (start + 1) len

end MCPClient

namespace MCPServer

/-- A `SessionInfo` record of the server's session map
(`spotify-mcp-server/src/index.ts`), without the transport handle. -/
structure SessionInfo where
  spotifyToken : String
  lastActivity : Nat
  createdAt : Nat
  connected : Bool
deriving Repr, DecidableEq

/-- The server's `sessions` map, as an association list with unique keys
maintained by `mapSet`. -/
abbrev Registry := List (String × SessionInfo)

/-- `Map.set`: replace the entry in place when the key is present,
append it otherwise. -/
def mapSet (reg : Registry) (sid : String) (info : SessionInfo) : Registry :=
  if (reg.lookup sid).isSome then
    reg.map (fun p => if p.1 = sid then (sid, info) else p)
  else reg ++ [(sid, info)]

/-- The parts of a `POST /mcp` request the handler dispatches on:
the `mcp-session-id` header, the already-extracted credential
(`extractSpotifyToken(req)`; `none` when every source was absent or
falsy), and whether the body `isInitializeRequest`. -/
structure McpPost where
  sessionHeader : Option String
  token : Option String
  isInit : Bool
deriving Repr, DecidableEq

/-- JavaScript truthiness of the session header string. -/
def headerTruthy : Option String → Bool
  | some s => s != ""
  | none => false

/-- The HTTP response of the `POST /mcp` handler, as far as the claims
observe it: either `transport.handleRequest` runs for a session, or the
request is rejected with a status and a JSON-RPC error body. -/
inductive PostOutcome where
  | handled (sessionId : String) : PostOutcome
  | rejected (status : Nat) (errorCode : Int) (message : String) : PostOutcome
deriving Repr, DecidableEq

/-- The 401 message for a failed token validation. -/
def invalidTokenMsg : String := "Invalid Spotify access token provided"

/-- The 401 message for a new-session request with no credential. -/
def missingTokenMsg : String :=
  "Spotify access token is required for session initialization. Provide it via \x27X-Spotify-Token\x27, \x27Spotify-Token\x27, \x27Authorization: Bearer <token>\x27 header, or \x27spotify_token\x27 in request body."

/-- The 400 message of the invalid-request branch. -/
def badRequestMsg : String :=
  "Bad Request: No valid session ID provided or not an initialize request"

/-- Result of the `POST /mcp` handler: the outcome, the session map
afterwards, and how many times `validateSpotifyToken` (one upstream
identity-API call per invocation) was invoked. -/
structure PostResult where
  outcome : PostOutcome
  registry : Registry
  validationCalls : Nat
deriving Repr, DecidableEq

/-- The existing-session branch (index.ts lines 1097-1118):
`lastActivity` is refreshed, and a supplied credential differing from
the stored one is validated — rejecting with 401 on failure — while a
re-presented stored credential (or no credential) is not re-validated. -/
def existingSessionStep (reg : Registry) (sid : String) (info : SessionInfo)
    (token : Option String) (validate : String → Bool) (now : Nat) :
    PostResult :=
  let info1 : SessionInfo :=
    ⟨info.spotifyToken, now, info.createdAt, info.connected⟩
  let reg1 := mapSet reg sid info1
  match token with
  | some t =>
    if t != info1.spotifyToken then
      if validate t then
        ⟨PostOutcome.handled sid,
          mapSet reg1 sid ⟨t, now, info.createdAt, info.connected⟩, 1⟩
      else ⟨PostOutcome.rejected 401 (-32000) invalidTokenMsg, reg1, 1⟩
    else ⟨PostOutcome.handled sid, reg1, 0⟩
  | none => ⟨PostOutcome.handled sid, reg1, 0⟩

/-- The new-session / invalid-request arm (index.ts lines 1119-1194):
with no (truthy) session header, an initialize body creates a session —
requiring a credential (401 if absent) and validating it (401 if
invalid) — and any other body is rejected with 400 code -32000. -/
def newOrBadStep (reg : Registry) (req : McpPost)
    (validate : String → Bool) (now : Nat) (newSessionId : String) :
    PostResult :=
  if req.isInit then
    match req.token with
    | none => ⟨PostOutcome.rejected 401 (-32000) missingTokenMsg, reg, 0⟩
    | some t =>
      if validate t then
        ⟨PostOutcome.handled newSessionId,
          mapSet reg newSessionId ⟨t, now, now, true⟩, 1⟩
      else ⟨PostOutcome.rejected 401 (-32000) invalidTokenMsg, reg, 1⟩
  else ⟨PostOutcome.rejected 400 (-32000) badRequestMsg, reg, 0⟩

/-- The dispatch of `app.post("/mcp")` (index.ts lines 1087-1194):
a truthy session header naming a registered session takes the
existing-session branch; a falsy/absent header takes the new-session arm
when the body is an initialize request; everything else — including a
truthy header naming an unregistered session — is rejected with 400 and
JSON-RPC error code -32000 before any handler runs. `validate` is the
oracle for `validateSpotifyToken` and `newSessionId` the `randomUUID()`
outcome. -/
def handlePost (reg : Registry) (req : McpPost) (validate : String → Bool)
    (now : Nat) (newSessionId : String) : PostResult :=
  match req.sessionHeader with
  | some sid =>
    if sid != "" then
      match reg.lookup sid with
      | some info => existingSessionStep reg sid info req.token validate now
      | none => ⟨PostOutcome.rejected 400 (-32000) badRequestMsg, reg, 0⟩
    else newOrBadStep reg req validate now newSessionId
  | none => newOrBadStep reg req validate now newSessionId

/-- The idle-session sweep (index.ts lines 1033-1049): every entry whose
inactivity exceeds the 30-minute timeout is closed and deleted. -/
def sweepSessions (reg : Registry) (now : Nat) : Registry :=
  reg.filter (fun p =>
    if now - p.2.lastActivity > 30 * 60 * 1000 then false else true)

end MCPServer

namespace MCPClient

/-- The event-stream body of the spec's concrete decode example:
a single `data: ` frame followed by a blank line. -/
def sseExampleBody : String :=
  "data: \x7b\"jsonrpc\":\"2.0\",\"id\":1,\"result\":\x7b\"ok\":true\x7d\x7d\n\n"

/-- The envelope the spec's concrete example must decode to. -/
def sseExampleEnvelope : Json :=
  Json.obj [("jsonrpc", Json.str "2.0"), ("id", Json.num 1),
            ("result", Json.obj [("ok", Json.bool true)])]

/-- A response body whose envelope carries both a `result` and an
`error` field. -/
def bothBody : String :=
  "\x7b\"jsonrpc\":\"2.0\",\"id\":1,\"result\":1,\"error\":\x7b\"code\":1,\"message\":\"boom\"\x7d\x7d"

/-- The decoded envelope of `bothBody`. -/
def bothEnvelope : Json :=
  Json.obj [("jsonrpc", Json.str "2.0"), ("id", Json.num 1),
            ("result", Json.num 1),
            ("error", Json.obj [("code", Json.num 1), ("message", Json.str "boom")])]

/-- A response body whose envelope carries only an `error` field. -/
def errorOnlyBody : String :=
  "\x7b\"jsonrpc\":\"2.0\",\"id\":2,\"error\":\x7b\"code\":-32600,\"message\":\"boom\"\x7d\x7d"

/-- The decoded envelope of `errorOnlyBody`. -/
def errorOnlyEnvelope : Json :=
  Json.obj [("jsonrpc", Json.str "2.0"), ("id", Json.num 2),
            ("error", Json.obj [("code", Json.num (-32600)), ("message", Json.str "boom")])]

/-- A response body whose envelope carries only a `result` field. -/
def resultOnlyBody : String :=
  "\x7b\"jsonrpc\":\"2.0\",\"id\":3,\"result\":7\x7d"

/-- The decoded envelope of `resultOnlyBody`. -/
def resultOnlyEnvelope : Json :=
  Json.obj [("jsonrpc", Json.str "2.0"), ("id", Json.num 3),
            ("result", Json.num 7)]

end MCPClient

namespace MCPServer

/-- A concrete registered session used to instantiate the server
theorems. -/
def demoInfo : SessionInfo := ⟨"tokA", 0, 0, true⟩

/-- A one-session registry holding `demoInfo` under id `"s1"`. -/
def demoRegistry : Registry := [("s1", demoInfo)]

end MCPServer

namespace MCPClient

theorem natSeq_length (s k : Nat) : (natSeq s k).length = k := by
  induction k generalizing s with
  | zero => rfl
  | succ n ih => simp [natSeq, ih]

theorem natSeq_append (s a b : Nat) :
    natSeq s (a + b) = natSeq s a ++ natSeq (s + a) b := by
  induction a generalizing s with
  | zero => simp [natSeq]
  | succ n ih =>
    have h : s + (n + 1) = (s + 1) + n := by omega
    simp [Nat.succ_add, natSeq, ih (s + 1), h]

theorem requestIds_append (m1 m2 : List SentMessage) :
    requestIds (m1 ++ m2) = requestIds m1 ++ requestIds m2 := by
  simp [requestIds, List.filterMap_append]

theorem msgId_initializeBody (i : Nat) :
    msgId (SentMessage.post (initializeBody i)) = some (i : Int) := rfl

theorem msgId_requestBody (m : String) (p : Json) (i : Nat) :
    msgId (SentMessage.post (requestBody m p i)) = some (i : Int) := rfl

theorem msgId_notificationBody (m : String) (p : Json) :
    msgId (SentMessage.post (notificationBody m p)) = none := rfl

theorem sendRequest_ids (st : ClientState) (method : String) (params : Json)
    (oracle : List FetchResult) :
    ∃ k, requestIds (sendRequest st method params oracle).sent
        = natSeq st.requestId k
      ∧ (sendRequest st method params oracle).state.requestId
        = st.requestId + k := by
  cases hs : sessionTruthy st.sessionId with
  | false =>
    exact ⟨0, by simp [sendRequest, hs, requestIds, natSeq]⟩
  | true =>
    cases oracle with
    | nil =>
      refine ⟨1, ?_, ?_⟩ <;>
        simp [sendRequest, hs, requestIds, natSeq, msgId_requestBody]
    | cons r rest =>
      refine ⟨1, ?_, ?_⟩ <;>
        simp [sendRequest, hs, requestIds, natSeq, msgId_requestBody]

theorem initLoop_ids (fuel attempt : Nat) (st : ClientState)
    (oracle : List FetchResult) :
    ∃ k, requestIds (initLoop attempt fuel st oracle).sent
        = natSeq st.requestId k
      ∧ (initLoop attempt fuel st oracle).state.requestId
        = st.requestId + k := by
  induction fuel generalizing attempt st oracle with
  | zero => exact ⟨0, rfl, rfl⟩
  | succ n ih =>
    cases oracle with
    | nil =>
      exact ⟨1, by simp [initLoop, requestIds, natSeq, msgId_initializeBody], rfl⟩
    | cons r rest =>
      cases r with
      | networkError e =>
        exact ⟨1, by simp [initLoop, requestIds, natSeq, msgId_initializeBody], rfl⟩
      | success status text hdr rbody =>
        by_cases h429 : status = 429
        · obtain ⟨k, hk1, hk2⟩ := ih (attempt + 1) ⟨st.sessionId, st.requestId + 1⟩ rest
          refine ⟨k + 1, ?_, ?_⟩
          · simp [initLoop, h429, requestIds, msgId_initializeBody, natSeq] at hk1 ⊢
            exact hk1
          · simp [initLoop, h429] at hk2 ⊢
            omega
        · by_cases hok : statusOk status
          · cases hh : sessionTruthy hdr with
            | false =>
              refine ⟨1, ?_, ?_⟩ <;>
                simp [initLoop, h429, hok, hh, requestIds, natSeq,
                  msgId_initializeBody]
            | true =>
              cases rest with
              | nil =>
                refine ⟨1, ?_, ?_⟩ <;>
                  simp [initLoop, h429, hok, hh, requestIds, natSeq,
                    msgId_initializeBody, msgId_notificationBody]
              | cons nr rest2 =>
                cases nr <;> (
                  refine ⟨1, ?_, ?_⟩ <;>
                    simp [initLoop, h429, hok, hh, requestIds, natSeq,
                      msgId_initializeBody, msgId_notificationBody])
          · refine ⟨1, ?_, ?_⟩ <;>
              simp [initLoop, h429, hok, requestIds, natSeq, msgId_initializeBody]

theorem stepOp_ids (st : ClientState) (oracle : List FetchResult)
    (op : ClientOp) :
    ∃ k, requestIds (stepOp st oracle op).2.1 = natSeq st.requestId k
      ∧ (stepOp st oracle op).1.requestId = st.requestId + k := by
  cases op with
  | opInit =>
    simpa [stepOp, initializeClient] using initLoop_ids 3 0 st oracle
  | opCallTool n a =>
    simpa [stepOp, callTool] using sendRequest_ids st "tools/call" _ oracle
  | opListTools =>
    simpa [stepOp, listTools] using sendRequest_ids st "tools/list" _ oracle
  | opClose r =>
    refine ⟨0, ?_, ?_⟩ <;>
      cases hs : st.sessionId <;>
        simp [stepOp, close, hs, requestIds, natSeq, msgId] <;>
        split <;> simp

theorem run_ids (ops : List ClientOp) (st : ClientState)
    (oracle : List FetchResult) :
    ∃ k, requestIds (run st ops oracle).2 = natSeq st.requestId k
      ∧ (run st ops oracle).1.requestId = st.requestId + k := by
  induction ops generalizing st oracle with
  | nil => exact ⟨0, rfl, rfl⟩
  | cons op rest ih =>
    obtain ⟨k1, h1, h2⟩ := stepOp_ids st oracle op
    obtain ⟨k2, h3, h4⟩ := ih (stepOp st oracle op).1 (stepOp st oracle op).2.2
    refine ⟨k1 + k2, ?_, ?_⟩
    · show requestIds ((stepOp st oracle op).2.1 ++ _) = _
      rw [requestIds_append, h1, h3, h2, natSeq_append]
    · show (run (stepOp st oracle op).1 rest (stepOp st oracle op).2.2).1.requestId = _
      omega

end MCPClient

/-- C1: in every initialization run whose first three fetches answer
HTTP 429, `initialize()` sleeps `2 ^ attempt * 1000` ms after each
attempt — 1000 ms, 2000 ms, 4000 ms — sends exactly the three handshake
envelopes, consumes nothing further from the network, and fails with the
`SessionInitializationFailed` message; and when the first attempt is
rate-limited but the second answers 2xx with a non-empty session
header, only the 1000 ms wait occurs and no third handshake is sent. -/
theorem C1_retry_backoff_and_short_circuit :
    (∀ t1 o1 b1 t2 o2 b2 t3 o3 b3 rest,
      (MCPClient.initializeClient MCPClient.initialState
        (MCPClient.FetchResult.success 429 t1 o1 b1 ::
         MCPClient.FetchResult.success 429 t2 o2 b2 ::
         MCPClient.FetchResult.success 429 t3 o3 b3 :: rest)).outcome
          = Except.error MCPClient.sessionInitFailedMsg
      ∧ (MCPClient.initializeClient MCPClient.initialState
        (MCPClient.FetchResult.success 429 t1 o1 b1 ::
         MCPClient.FetchResult.success 429 t2 o2 b2 ::
         MCPClient.FetchResult.success 429 t3 o3 b3 :: rest)).waits
          = [2 ^ 0 * 1000, 2 ^ 1 * 1000, 2 ^ 2 * 1000]
      ∧ (MCPClient.initializeClient MCPClient.initialState
        (MCPClient.FetchResult.success 429 t1 o1 b1 ::
         MCPClient.FetchResult.success 429 t2 o2 b2 ::
         MCPClient.FetchResult.success 429 t3 o3 b3 :: rest)).sent
          = [MCPClient.SentMessage.post (MCPClient.initializeBody 1),
             MCPClient.SentMessage.post (MCPClient.initializeBody 2),
             MCPClient.SentMessage.post (MCPClient.initializeBody 3)]
      ∧ (MCPClient.initializeClient MCPClient.initialState
        (MCPClient.FetchResult.success 429 t1 o1 b1 ::
         MCPClient.FetchResult.success 429 t2 o2 b2 ::
         MCPClient.FetchResult.success 429 t3 o3 b3 :: rest)).rest = rest)
    ∧ (∀ t1 o1 b1 s t2 sid b2 nr rest, 200 ≤ s → s < 300 → sid ≠ "" →
      (MCPClient.initializeClient MCPClient.initialState
        (MCPClient.FetchResult.success 429 t1 o1 b1 ::
         MCPClient.FetchResult.success s t2 (some sid) b2 :: nr :: rest)).waits
          = [1000]
      ∧ (MCPClient.initializeClient MCPClient.initialState
        (MCPClient.FetchResult.success 429 t1 o1 b1 ::
         MCPClient.FetchResult.success s t2 (some sid) b2 :: nr :: rest)).sent
          = [MCPClient.SentMessage.post (MCPClient.initializeBody 1),
             MCPClient.SentMessage.post (MCPClient.initializeBody 2),
             MCPClient.SentMessage.post
               (MCPClient.notificationBody "notifications/initialized" (Json.obj []))]
      ∧ (MCPClient.initializeClient MCPClient.initialState
        (MCPClient.FetchResult.success 429 t1 o1 b1 ::
         MCPClient.FetchResult.success s t2 (some sid) b2 :: nr :: rest)).rest
          = rest) := by
  constructor
  · intro t1 o1 b1 t2 o2 b2 t3 o3 b3 rest
    exact ⟨rfl, rfl, rfl, rfl⟩
  · intro t1 o1 b1 s t2 sid b2 nr rest h1 h2 hsid
    have h429 : ¬(s = 429) := by omega
    have hok : MCPClient.statusOk s = true := by
      simp [MCPClient.statusOk]
      omega
    cases nr <;>
      simp [MCPClient.initializeClient, MCPClient.initLoop, h429, hok,
        MCPClient.initialState, MCPClient.sessionTruthy, bne_iff_ne, hsid]

/-- C1 witness: the short-circuit half applied to the concrete run
429 then 200. -/
theorem C1_witness :
    (MCPClient.initializeClient MCPClient.initialState
      (MCPClient.FetchResult.success 429 "Too Many Requests" none "" ::
       MCPClient.FetchResult.success 200 "OK" (some "sess-1") "" ::
       MCPClient.FetchResult.success 202 "Accepted" none "" :: [])).waits
        = [1000]
    ∧ (MCPClient.initializeClient MCPClient.initialState
      (MCPClient.FetchResult.success 429 "Too Many Requests" none "" ::
       MCPClient.FetchResult.success 200 "OK" (some "sess-1") "" ::
       MCPClient.FetchResult.success 202 "Accepted" none "" :: [])).sent
        = [MCPClient.SentMessage.post (MCPClient.initializeBody 1),
           MCPClient.SentMessage.post (MCPClient.initializeBody 2),
           MCPClient.SentMessage.post
             (MCPClient.notificationBody "notifications/initialized" (Json.obj []))]
    ∧ (MCPClient.initializeClient MCPClient.initialState
      (MCPClient.FetchResult.success 429 "Too Many Requests" none "" ::
       MCPClient.FetchResult.success 200 "OK" (some "sess-1") "" ::
       MCPClient.FetchResult.success 202 "Accepted" none "" :: [])).rest
        = [] :=
  C1_retry_backoff_and_short_circuit.2 "Too Many Requests" none "" 200 "OK"
    "sess-1" "" (MCPClient.FetchResult.success 202 "Accepted" none "") []
    (by decide) (by decide) (by decide)

/-- C2: whenever the client holds no session identifier — freshly
constructed, after a failed `initialize()`, or after `close()` cleared
it — `callTool` and `listTools` fail with the `SessionNotInitialized`
message, leave the state untouched, send no message and consume nothing
from the network. -/
theorem C2_uninitialized_call_fails_fast (st : MCPClient.ClientState)
    (name : String) (args : Json) (oracle : List MCPClient.FetchResult)
    (h : st.sessionId = none) :
    MCPClient.callTool st name args oracle
      = (⟨Except.error MCPClient.notInitializedMsg, st, [], oracle⟩ :
          MCPClient.CallResult)
    ∧ MCPClient.listTools st oracle
      = (⟨Except.error MCPClient.notInitializedMsg, st, [], oracle⟩ :
          MCPClient.CallResult) := by
  constructor <;>
    simp [MCPClient.callTool, MCPClient.listTools, MCPClient.sendRequest,
      MCPClient.sessionTruthy, h]

/-- C2 witness: the fresh client state. -/
theorem C2_witness :
    MCPClient.callTool MCPClient.initialState "search_tracks" (Json.obj []) []
      = (⟨Except.error MCPClient.notInitializedMsg, MCPClient.initialState, [], []⟩ :
          MCPClient.CallResult)
    ∧ MCPClient.listTools MCPClient.initialState []
      = (⟨Except.error MCPClient.notInitializedMsg, MCPClient.initialState, [], []⟩ :
          MCPClient.CallResult) :=
  C2_uninitialized_call_fails_fast MCPClient.initialState "search_tracks"
    (Json.obj []) [] rfl

/-- C3: every body that `JSON.parse` rejects is decoded through the
`data: `-line path — the stripped payloads are concatenated and
JSON-parsed, and a successful parse of the concatenation is the decode
result — and the spec's concrete event-stream example decodes to its
envelope. -/
theorem C3_sse_fallback_decode :
    (∀ body j, Json.parse body = none →
      Json.parse (MCPClient.extractSSEData body) = some j →
      MCPClient.decodeBody body = Except.ok j)
    ∧ MCPClient.decodeBody MCPClient.sseExampleBody
        = Except.ok MCPClient.sseExampleEnvelope := by
  constructor
  · intro body j h1 h2
    have hne : MCPClient.extractSSEData body ≠ "" := by
      intro he
      rw [he] at h2
      exact Option.noConfusion h2
    unfold MCPClient.decodeBody MCPClient.parseSSEResponse
    rw [h1]
    simp [bne_iff_ne, hne, h2]
  · rfl

/-- C3 witness: the fallback half applied to a one-frame body. -/
theorem C3_witness :
    MCPClient.decodeBody "data: \x7b\"a\":1\x7d"
      = Except.ok (Json.obj [("a", Json.num 1)]) :=
  C3_sse_fallback_decode.1 "data: \x7b\"a\":1\x7d"
    (Json.obj [("a", Json.num 1)]) rfl rfl

/-- C4: every body that neither `JSON.parse` accepts nor whose
concatenated `data: ` payloads parse (the empty concatenation included)
makes the decode step fail with exactly the `UnparseableResponse`
message carrying the first 200 characters of the body — no other
outcome is possible. -/
theorem C4_unparseable_response_error (body : String)
    (h1 : Json.parse body = none)
    (h2 : Json.parse (MCPClient.extractSSEData body) = none) :
    MCPClient.decodeBody body =
      Except.error ("Unable to parse response: "
        ++ MCPClient.substringTo body 200) := by
  unfold MCPClient.decodeBody MCPClient.parseSSEResponse
  rw [h1]
  by_cases he : MCPClient.extractSSEData body = ""
  · simp [he]
  · simp [bne_iff_ne, he, h2]

/-- C4 witness: a body with no JSON and no `data: ` line. -/
theorem C4_witness :
    MCPClient.decodeBody "hello" =
      Except.error ("Unable to parse response: "
        ++ MCPClient.substringTo "hello" 200) :=
  C4_unparseable_response_error "hello" rfl rfl

/-- C5 counterexample: on an envelope carrying both a `result` and an
`error` field (so "result absent and error present" does not hold), the
claim's "otherwise" clause predicts that the `result` field is
returned, but `sendRequest` throws the `RemoteProcedureError` message
instead. -/
theorem C5_counterexample :
    MCPClient.decodeBody MCPClient.bothBody = Except.ok MCPClient.bothEnvelope
    ∧ MCPClient.bothEnvelope.getField "result" = some (Json.num 1)
    ∧ MCPClient.bothEnvelope.getField "error"
        = some (Json.obj [("code", Json.num 1), ("message", Json.str "boom")])
    ∧ (MCPClient.sendRequest ⟨some "sess", 5⟩ "tools/call" (Json.obj [])
        [MCPClient.FetchResult.success 200 "OK" none MCPClient.bothBody]).outcome
        = Except.error "Spotify MCP Error: boom"
    ∧ (MCPClient.sendRequest ⟨some "sess", 5⟩ "tools/call" (Json.obj [])
        [MCPClient.FetchResult.success 200 "OK" none MCPClient.bothBody]).outcome
        ≠ Except.ok (MCPClient.bothEnvelope.getField "result") :=
  ⟨rfl, rfl, rfl, rfl, fun h => Except.noConfusion h⟩

/-- C5 as amended: with a non-empty session identifier held, whenever
the decoded envelope's `error` field is present and truthy — even when
a `result` field is also present — the call fails with
`RemoteProcedureError` whose message equals `error.message`; when
`error` is absent, the `result` field is returned. -/
theorem C5_error_field_precedence (st : MCPClient.ClientState) (sid : String)
    (method : String) (params : Json) (t : String) (hdr : Option String)
    (body : String) (env : Json) (rest : List MCPClient.FetchResult)
    (hs : st.sessionId = some sid) (hsid : sid ≠ "")
    (hd : MCPClient.decodeBody body = Except.ok env) :
    (∀ e m, env.getField "error" = some e → e.isTruthy = true →
      e.getField "message" = some (Json.str m) →
      (MCPClient.sendRequest st method params
        (MCPClient.FetchResult.success 200 t hdr body :: rest)).outcome
        = Except.error ("Spotify MCP Error: " ++ m))
    ∧ (env.getField "error" = none →
      (MCPClient.sendRequest st method params
        (MCPClient.FetchResult.success 200 t hdr body :: rest)).outcome
        = Except.ok (env.getField "result")) := by
  constructor
  · intro e m he ht hm
    simp [MCPClient.sendRequest, hs, MCPClient.sessionTruthy, bne_iff_ne, hsid,
      MCPClient.sendRequestOutcome, MCPClient.statusOk, hd,
      MCPClient.envelopeOutcome, he, ht, MCPClient.errMessageOf, hm,
      MCPClient.jsDisplay]
  · intro he
    simp [MCPClient.sendRequest, hs, MCPClient.sessionTruthy, bne_iff_ne, hsid,
      MCPClient.sendRequestOutcome, MCPClient.statusOk, hd,
      MCPClient.envelopeOutcome, he]

/-- C5 witness: an error-only envelope throws with the envelope's
message, and a result-only envelope returns its result. -/
theorem C5_witness :
    (MCPClient.sendRequest ⟨some "sess", 1⟩ "tools/call" (Json.obj [])
      [MCPClient.FetchResult.success 200 "OK" none MCPClient.errorOnlyBody]).outcome
      = Except.error ("Spotify MCP Error: " ++ "boom")
    ∧ (MCPClient.sendRequest ⟨some "sess", 1⟩ "tools/call" (Json.obj [])
      [MCPClient.FetchResult.success 200 "OK" none MCPClient.resultOnlyBody]).outcome
      = Except.ok (MCPClient.resultOnlyEnvelope.getField "result") :=
  ⟨(C5_error_field_precedence ⟨some "sess", 1⟩ "sess" "tools/call"
      (Json.obj []) "OK" none MCPClient.errorOnlyBody
      MCPClient.errorOnlyEnvelope [] rfl (by decide) rfl).1
      (Json.obj [("code", Json.num (-32600)), ("message", Json.str "boom")])
      "boom" rfl rfl rfl,
   (C5_error_field_precedence ⟨some "sess", 1⟩ "sess" "tools/call"
      (Json.obj []) "OK" none MCPClient.resultOnlyBody
      MCPClient.resultOnlyEnvelope [] rfl (by decide) rfl).2 rfl⟩

/-- C6 counterexample: a run whose handshake succeeds (200 with a
session header) but whose `initialized` notification fetch fails at the
network level: the notification was sent, yet the failure propagates and
`initialize()` does not complete successfully, contradicting the claim
that every failure of the notification is swallowed. -/
theorem C6_counterexample :
    (MCPClient.initializeClient MCPClient.initialState
      [MCPClient.FetchResult.success 200 "OK" (some "sess-1") "",
       MCPClient.FetchResult.networkError "fetch failed"]).sent
      = [MCPClient.SentMessage.post (MCPClient.initializeBody 1),
         MCPClient.SentMessage.post
           (MCPClient.notificationBody "notifications/initialized" (Json.obj []))]
    ∧ (MCPClient.initializeClient MCPClient.initialState
      [MCPClient.FetchResult.success 200 "OK" (some "sess-1") "",
       MCPClient.FetchResult.networkError "fetch failed"]).outcome
        = Except.error "fetch failed"
    ∧ (MCPClient.initializeClient MCPClient.initialState
      [MCPClient.FetchResult.success 200 "OK" (some "sess-1") "",
       MCPClient.FetchResult.networkError "fetch failed"]).outcome
        ≠ Except.ok () := by
  refine ⟨rfl, rfl, fun h => ?_⟩
  exact Except.noConfusion h

/-- C6 as amended: after a successful handshake (2xx with a non-empty
session header) the client sends the fire-and-forget `initialized`
notification; every HTTP response to that notification — any status,
2xx or not — is only logged and `initialize()` still completes
successfully, but a network-level failure of the notification fetch
propagates and `initialize()` fails with it. -/
theorem C6_notification_failure_policy :
    ∀ t1 sid b1 rest, sid ≠ "" →
      (∀ ns nt nh nb,
        (MCPClient.initializeClient MCPClient.initialState
          (MCPClient.FetchResult.success 200 t1 (some sid) b1 ::
           MCPClient.FetchResult.success ns nt nh nb :: rest)).outcome
          = Except.ok ()
        ∧ (MCPClient.initializeClient MCPClient.initialState
          (MCPClient.FetchResult.success 200 t1 (some sid) b1 ::
           MCPClient.FetchResult.success ns nt nh nb :: rest)).sent
            = [MCPClient.SentMessage.post (MCPClient.initializeBody 1),
               MCPClient.SentMessage.post
                 (MCPClient.notificationBody "notifications/initialized"
                   (Json.obj []))])
      ∧ (∀ e,
        (MCPClient.initializeClient MCPClient.initialState
          (MCPClient.FetchResult.success 200 t1 (some sid) b1 ::
           MCPClient.FetchResult.networkError e :: rest)).outcome
          = Except.error e) := by
  intro t1 sid b1 rest hsid
  have ht : MCPClient.sessionTruthy (some sid) = true := by
    simp [MCPClient.sessionTruthy, bne_iff_ne, hsid]
  refine ⟨fun ns nt nh nb => ?_, fun e => ?_⟩
  · constructor <;>
      simp [MCPClient.initializeClient, MCPClient.initLoop,
        MCPClient.initialState, MCPClient.statusOk, ht]
  · simp [MCPClient.initializeClient, MCPClient.initLoop,
      MCPClient.initialState, MCPClient.statusOk, ht]

/-- C6 witness: the amended policy at a concrete run — a 500 response
to the notification still completes, a network failure propagates. -/
theorem C6_witness :
    (MCPClient.initializeClient MCPClient.initialState
      [MCPClient.FetchResult.success 200 "OK" (some "sess-1") "",
       MCPClient.FetchResult.success 500 "Internal Server Error" none ""]).outcome
      = Except.ok ()
    ∧ (MCPClient.initializeClient MCPClient.initialState
      [MCPClient.FetchResult.success 200 "OK" (some "sess-1") "",
       MCPClient.FetchResult.networkError "boom"]).outcome
      = Except.error "boom" :=
  ⟨((C6_notification_failure_policy "OK" "sess-1" "" [] (by decide)).1
      500 "Internal Server Error" none "").1,
   (C6_notification_failure_policy "OK" "sess-1" "" [] (by decide)).2 "boom"⟩

/-- C7: over every sequence of client operations from a fresh client,
the ids carried by the request envelopes actually sent are exactly
1, 2, 3, … in order (the counter starts at 1 and increments by one per
request, handshake attempts included), while notification envelopes
carry no `id` field and request envelopes carry exactly their counter
value. -/
theorem C7_request_ids_monotonic (ops : List MCPClient.ClientOp)
    (oracle : List MCPClient.FetchResult) :
    MCPClient.requestIds (MCPClient.run MCPClient.initialState ops oracle).2
      = MCPClient.natSeq 1
          (MCPClient.requestIds
            (MCPClient.run MCPClient.initialState ops oracle).2).length
    ∧ (∀ m p, (MCPClient.notificationBody m p).getField "id" = none)
    ∧ (∀ m p i, (MCPClient.requestBody m p i).getField "id"
        = some (Json.num i)) := by
  refine ⟨?_, fun m p => rfl, fun m p i => rfl⟩
  obtain ⟨k, h1, _⟩ := MCPClient.run_ids ops MCPClient.initialState oracle
  rw [h1, MCPClient.natSeq_length]
  rfl

/-- C8: with a non-empty session identifier held (the only truthy case
of `if (this.sessionId)`), `close()` sends exactly one DELETE for that
session and clears the identifier; its result does not depend on the
outcome of that fire-and-forget fetch (the error is swallowed), and a
second `close()` is a no-op: no message, no state change, no error. -/
theorem C8_close_idempotent (st : MCPClient.ClientState) (sid : String)
    (r r' : MCPClient.FetchResult) (h : st.sessionId = some sid)
    (hsid : sid ≠ "") :
    MCPClient.close st r
      = (⟨none, st.requestId⟩, [MCPClient.SentMessage.deleteSession sid])
    ∧ MCPClient.close st r = MCPClient.close st r'
    ∧ MCPClient.close (MCPClient.close st r).1 r'
      = ((MCPClient.close st r).1, []) := by
  simp [MCPClient.close, h, bne_iff_ne, hsid]

/-- C8 witness: closing a live session twice. -/
theorem C8_witness :
    MCPClient.close ⟨some "sess-1", 3⟩ (MCPClient.FetchResult.networkError "refused")
      = (⟨none, 3⟩, [MCPClient.SentMessage.deleteSession "sess-1"])
    ∧ MCPClient.close ⟨some "sess-1", 3⟩ (MCPClient.FetchResult.networkError "refused")
      = MCPClient.close ⟨some "sess-1", 3⟩ (MCPClient.FetchResult.success 200 "OK" none "")
    ∧ MCPClient.close
        (MCPClient.close ⟨some "sess-1", 3⟩
          (MCPClient.FetchResult.networkError "refused")).1
        (MCPClient.FetchResult.success 200 "OK" none "")
      = ((MCPClient.close ⟨some "sess-1", 3⟩
          (MCPClient.FetchResult.networkError "refused")).1, []) :=
  C8_close_idempotent ⟨some "sess-1", 3⟩ "sess-1"
    (MCPClient.FetchResult.networkError "refused")
    (MCPClient.FetchResult.success 200 "OK" none "") rfl (by decide)

/-- C9: the `POST /mcp` handler validates a supplied credential against
the upstream identity API exactly once per new-session initialization
and exactly once per credential change within an existing session; a
request re-presenting the session's stored credential triggers no
validation; and it rejects with HTTP 401 carrying a JSON-RPC error both
when validation fails and when a new-session request supplies no
credential. -/
theorem C9_credential_validation_policy :
    (∀ (reg : MCPServer.Registry) (validate : String → Bool) (now : Nat)
        (nsid t : String),
      (MCPServer.handlePost reg ⟨none, some t, true⟩ validate now nsid).validationCalls = 1
      ∧ (validate t = false →
          (MCPServer.handlePost reg ⟨none, some t, true⟩ validate now nsid).outcome
            = MCPServer.PostOutcome.rejected 401 (-32000) MCPServer.invalidTokenMsg)
      ∧ (validate t = true →
          (MCPServer.handlePost reg ⟨none, some t, true⟩ validate now nsid).outcome
            = MCPServer.PostOutcome.handled nsid))
    ∧ (∀ (reg : MCPServer.Registry) (validate : String → Bool) (now : Nat)
        (nsid : String),
      MCPServer.handlePost reg ⟨none, none, true⟩ validate now nsid
        = ⟨MCPServer.PostOutcome.rejected 401 (-32000) MCPServer.missingTokenMsg,
           reg, 0⟩)
    ∧ (∀ (reg : MCPServer.Registry) (sid : String) (info : MCPServer.SessionInfo)
        (validate : String → Bool) (now : Nat) (nsid : String) (isInit : Bool),
      sid ≠ "" → reg.lookup sid = some info →
      (MCPServer.handlePost reg ⟨some sid, some info.spotifyToken, isInit⟩
        validate now nsid).validationCalls = 0
      ∧ (MCPServer.handlePost reg ⟨some sid, some info.spotifyToken, isInit⟩
          validate now nsid).outcome = MCPServer.PostOutcome.handled sid)
    ∧ (∀ (reg : MCPServer.Registry) (sid : String) (info : MCPServer.SessionInfo)
        (t : String) (validate : String → Bool) (now : Nat) (nsid : String)
        (isInit : Bool),
      sid ≠ "" → reg.lookup sid = some info → t ≠ info.spotifyToken →
      (MCPServer.handlePost reg ⟨some sid, some t, isInit⟩
        validate now nsid).validationCalls = 1
      ∧ (validate t = false →
          (MCPServer.handlePost reg ⟨some sid, some t, isInit⟩
            validate now nsid).outcome
            = MCPServer.PostOutcome.rejected 401 (-32000) MCPServer.invalidTokenMsg)
      ∧ (validate t = true →
          (MCPServer.handlePost reg ⟨some sid, some t, isInit⟩
            validate now nsid).outcome = MCPServer.PostOutcome.handled sid)) := by
  refine ⟨?_, ?_, ?_, ?_⟩
  · intro reg validate now nsid t
    refine ⟨?_, fun hv => ?_, fun hv => ?_⟩
    · cases hv : validate t <;>
        simp [MCPServer.handlePost, MCPServer.newOrBadStep, hv]
    · simp [MCPServer.handlePost, MCPServer.newOrBadStep, hv]
    · simp [MCPServer.handlePost, MCPServer.newOrBadStep, hv]
  · intro reg validate now nsid
    simp [MCPServer.handlePost, MCPServer.newOrBadStep]
  · intro reg sid info validate now nsid isInit hsid hlook
    constructor <;>
      simp [MCPServer.handlePost, MCPServer.existingSessionStep, bne_iff_ne,
        hsid, hlook]
  · intro reg sid info t validate now nsid isInit hsid hlook hne
    refine ⟨?_, fun hv => ?_, fun hv => ?_⟩
    · cases hv : validate t <;>
        simp [MCPServer.handlePost, MCPServer.existingSessionStep, bne_iff_ne,
          hsid, hlook, hne, hv]
    · simp [MCPServer.handlePost, MCPServer.existingSessionStep, bne_iff_ne,
        hsid, hlook, hne, hv]
    · simp [MCPServer.handlePost, MCPServer.existingSessionStep, bne_iff_ne,
        hsid, hlook, hne, hv]

/-- C9 witness: each validation case of `handlePost` at concrete
inputs — a rejected new session, a new session with no credential, a
re-presented stored credential with zero validations, and an accepted
credential change. -/
theorem C9_witness :
    (MCPServer.handlePost [] ⟨none, some "tok", true⟩ (fun _ => false) 0 "ns").outcome
      = MCPServer.PostOutcome.rejected 401 (-32000) MCPServer.invalidTokenMsg
    ∧ MCPServer.handlePost [] ⟨none, none, true⟩ (fun _ => true) 0 "ns"
      = ⟨MCPServer.PostOutcome.rejected 401 (-32000) MCPServer.missingTokenMsg, [], 0⟩
    ∧ (MCPServer.handlePost MCPServer.demoRegistry
        ⟨some "s1", some MCPServer.demoInfo.spotifyToken, false⟩
        (fun _ => true) 7 "ns").validationCalls = 0
    ∧ (MCPServer.handlePost MCPServer.demoRegistry ⟨some "s1", some "tokB", false⟩
        (fun _ => true) 7 "ns").outcome = MCPServer.PostOutcome.handled "s1" :=
  ⟨(C9_credential_validation_policy.1 [] (fun _ => false) 0 "ns" "tok").2.1 rfl,
   C9_credential_validation_policy.2.1 [] (fun _ => true) 0 "ns",
   (C9_credential_validation_policy.2.2.1 MCPServer.demoRegistry "s1"
      MCPServer.demoInfo (fun _ => true) 7 "ns" false (by decide) rfl).1,
   (C9_credential_validation_policy.2.2.2 MCPServer.demoRegistry "s1"
      MCPServer.demoInfo "tokB" (fun _ => true) 7 "ns" false (by decide) rfl
      (by decide)).2.2 rfl⟩

/-- C10: a `POST /mcp` whose session header names an id absent from the
registry — for instance one removed by the idle sweep, which retains
only sessions within the 30-minute window — is rejected with HTTP 400
and JSON-RPC error code -32000, with the registry untouched, no
validation performed and no handler run, whatever the body and
credential; and a request with no session header whose body is not an
initialize request receives the same 400. -/
theorem C10_unknown_session_bad_request :
    (∀ (reg : MCPServer.Registry) (req : MCPServer.McpPost)
        (validate : String → Bool) (now : Nat) (nsid sid : String),
      req.sessionHeader = some sid → sid ≠ "" → reg.lookup sid = none →
      MCPServer.handlePost reg req validate now nsid
        = ⟨MCPServer.PostOutcome.rejected 400 (-32000) MCPServer.badRequestMsg,
           reg, 0⟩)
    ∧ (∀ (reg : MCPServer.Registry) (req : MCPServer.McpPost)
        (validate : String → Bool) (now : Nat) (nsid : String),
      req.sessionHeader = none → req.isInit = false →
      MCPServer.handlePost reg req validate now nsid
        = ⟨MCPServer.PostOutcome.rejected 400 (-32000) MCPServer.badRequestMsg,
           reg, 0⟩)
    ∧ (∀ (reg : MCPServer.Registry) (now : Nat) (p : String × MCPServer.SessionInfo),
      p ∈ MCPServer.sweepSessions reg now →
      now - p.2.lastActivity ≤ 30 * 60 * 1000) := by
  refine ⟨?_, ?_, ?_⟩
  · intro reg req validate now nsid sid h1 h2 h3
    simp [MCPServer.handlePost, h1, h3, bne_iff_ne, h2]
  · intro reg req validate now nsid h1 h2
    simp [MCPServer.handlePost, MCPServer.newOrBadStep, h1, h2]
  · intro reg now p hp
    simp only [MCPServer.sweepSessions, List.mem_filter] at hp
    by_cases h : now - p.2.lastActivity > 30 * 60 * 1000
    · simp [h] at hp
    · omega

/-- C10 witness: an unknown session id with a valid credential and
non-initialize body receives the 400; so does a headerless
non-initialize request; and a surviving swept entry is within the idle
window. -/
theorem C10_witness :
    MCPServer.handlePost MCPServer.demoRegistry ⟨some "gone", some "tokA", false⟩
        (fun _ => true) 99 "ns"
      = ⟨MCPServer.PostOutcome.rejected 400 (-32000) MCPServer.badRequestMsg,
         MCPServer.demoRegistry, 0⟩
    ∧ MCPServer.handlePost [] ⟨none, some "tokA", false⟩ (fun _ => true) 0 "ns"
      = ⟨MCPServer.PostOutcome.rejected 400 (-32000) MCPServer.badRequestMsg, [], 0⟩
    ∧ (0 : Nat) - MCPServer.demoInfo.lastActivity ≤ 30 * 60 * 1000 :=
  ⟨C10_unknown_session_bad_request.1 MCPServer.demoRegistry
      ⟨some "gone", some "tokA", false⟩ (fun _ => true) 99 "ns" "gone"
      rfl (by decide) rfl,
   C10_unknown_session_bad_request.2.1 [] ⟨none, some "tokA", false⟩
      (fun _ => true) 0 "ns" rfl rfl,
   C10_unknown_session_bad_request.2.2 MCPServer.demoRegistry 0
      ("s1", MCPServer.demoInfo) (by simp [MCPServer.sweepSessions,
        MCPServer.demoRegistry, MCPServer.demoInfo])⟩
